import Mathlib

/-!
# go-oauth-service: credential store, session tokens and request handlers

A shallow embedding of `cmd/api/db_connector.go` and `cmd/api/routes.go`.

* The PostgreSQL server behind `*sql.DB` is a value of `Database`: the two tables
  created by `CREATE_USER_CRED_TABLE` and `CREATE_SESSION_TOKEN_TABLE`, rows kept in
  insertion order, plus the counter of the `SERIAL` column.
* The statements on `user_credentials` and the insert into `session_tokens` splice only
  hex digests and numbers between their quotes, so each is read as what it says for that
  value: the insert of the row, or the selection of the rows whose column equals it.
* The select of `GetToken` splices the token of the request, unescaped, so its condition
  is lexed and parsed the way the server reads it (`whereClause`): a token holding a quote
  ends the literal and the rest of it is SQL. A condition outside the small grammar
  modelled here is answered by an argument (`unparsed`).
* Every `db.Exec` / `db.Query` call takes the error the driver reports for reasons
  that lie outside the tables (`none` when the statement reaches the tables).
* `time.Now().Unix()` and the `Int63` drawn from the freshly seeded generator are
  arguments of the functions that read them.
* `crypto/sha256` is a parameter (`SHA256`); `hex.EncodeToString` is written out.
* Go errors are `Option String`: `none` is `nil`, `some msg` an error with that text.
* Logging is left out: it has no effect on the store or on the response.
-/

namespace OAuthService

/-! ## Machine integers -/

/-- Two's-complement wrap-around of a Go `int64` (and of `int` on a 64-bit target). -/
def wrapInt64 (x : Int) : Int := (x + 9223372036854775808) % 18446744073709551616 - 9223372036854775808

/-- The values of a Go `int64`. -/
def isInt64 (x : Int) : Prop := -9223372036854775808 ≤ x ∧ x ≤ 9223372036854775807

instance (x : Int) : Decidable (isInt64 x) := by unfold isInt64; infer_instance

/-- The values a PostgreSQL `int` (and `SERIAL`) column accepts. -/
def isInt4 (x : Int) : Prop := -2147483648 ≤ x ∧ x ≤ 2147483647

/-- The range test of `isInt4` by cases on the sign, which evaluates on an open term. -/
def inInt4Range : Int → Bool
  | .ofNat n => Nat.ble n 2147483647
  | .negSucc n => Nat.ble n 2147483647

instance (x : Int) : Decidable (isInt4 x) :=
  decidable_of_iff (inInt4Range x = true) (by
    unfold isInt4
    cases x with
    | ofNat n =>
      simp only [inInt4Range, Nat.ble_eq, Int.ofNat_eq_coe]
      omega
    | negSucc n =>
      simp only [inInt4Range, Nat.ble_eq, Int.negSucc_eq]
      omega)

/-! ## Hashing (routes.go, lines 168-173) -/

/-- The `crypto/sha256` package: the digest function together with its output size
(`sha256.Size = 32`). -/
structure SHA256 where
  /-- The digest of the bytes of a string. -/
  sum : String → List UInt8
  /-- A digest has 32 bytes. -/
  size_sum : ∀ s, (sum s).length = 32

/-- The function `getSHA256Hash`: the SHA-256 digest of the string. -/
def getSHA256Hash (sha : SHA256) (s : String) : List UInt8 := sha.sum s

/-- The digits `hex.EncodeToString` writes. -/
def hextable : List Char :=
  ['0', '1', '2', '3', '4', '5', '6', '7', '8', '9', 'a', 'b', 'c', 'd', 'e', 'f']

/-- The two hexadecimal digits of one byte, high nibble first. -/
def encodeByte (b : UInt8) : List Char :=
  [hextable.getD (b.toNat / 16) '0', hextable.getD (b.toNat % 16) '0']

/-- The function `hex.EncodeToString`. -/
def EncodeToString (src : List UInt8) : String := String.mk (src.flatMap encodeByte)

/-! ## Data model (db_connector.go, lines 20-55) -/

/-- A row of `user_credentials (userid SERIAL PRIMARY KEY, email, password)`. -/
structure UserCredentialRecord where
  userid : Int
  email : String
  password : String
deriving DecidableEq

/-- A row of `session_tokens (token, userid int, expiry_epoch int)`. -/
structure SessionTokenRecord where
  Token : String
  Userid : Int
  ExpiryEpoch : Int
deriving DecidableEq

/-- The database: both tables in insertion order, and the last value the sequence of
`user_credentials.userid` handed out (0 before the first row, so ids start at 1). -/
structure Database where
  user_credentials : List UserCredentialRecord
  userid_seq : Nat
  session_tokens : List SessionTokenRecord
deriving DecidableEq

/-- Run `INSERT INTO user_credentials (email, password) VALUES (..)`: the driver error
if there is one, an error when the sequence leaves the range of the column, else the
table with the new row appended under the next id. The two `varchar(255)` columns
admit every 64-character digest, so they reject nothing the program sends. -/
def Database.insertUserCredential (d : Database) (driverErr : Option String)
    (email password : String) : Except String Database :=
  match driverErr with
  | some e => .error e
  | none =>
    if isInt4 ((d.userid_seq + 1 : Nat) : Int) then
      .ok ⟨d.user_credentials ++ [⟨((d.userid_seq + 1 : Nat) : Int), email, password⟩],
           d.userid_seq + 1, d.session_tokens⟩
    else .error "pq: nextval: reached maximum value of sequence"

/-- Run `SELECT * FROM user_credentials WHERE email='..'`. -/
def Database.selectUserCredentials (d : Database) (driverErr : Option String)
    (email : String) : Except String (List UserCredentialRecord) :=
  match driverErr with
  | some e => .error e
  | none => .ok (d.user_credentials.filter fun r => r.email = email)

/-- Run `INSERT INTO session_tokens (userid, token, expiry_epoch) VALUES (..)`: both
integer columns are of type `int` and refuse a value outside its range. -/
def Database.insertSessionToken (d : Database) (driverErr : Option String)
    (userid : Int) (token : String) (expiry_epoch : Int) : Except String Database :=
  match driverErr with
  | some e => .error e
  | none =>
    if isInt4 userid ∧ isInt4 expiry_epoch then
      .ok ⟨d.user_credentials, d.userid_seq, d.session_tokens ++ [⟨token, userid, expiry_epoch⟩]⟩
    else .error "pq: value is out of range for type integer"

/-! ### The condition of the token query

`GetToken` builds `SELECT * FROM session_tokens WHERE token='%s'` with the token of the
request put in unescaped. The text after `WHERE` is read here as the server reads it,
for conditions of the form `operand = operand OR operand = operand ..`, an operand
being a string literal (a doubled quote inside it stands for one quote; a backslash is
an ordinary character, as with the server's default settings) or the column `token`. -/

/-- The character that opens and closes a string literal in SQL. -/
def quote : Char := Char.ofNat 39

/-- A lexical unit of the condition. -/
inductive SqlToken where
  /-- A keyword or column name, folded to lower case. -/
  | ident (name : String)
  /-- A string literal, quotes removed. -/
  | str (value : String)
  /-- The sign of equality. -/
  | eq
deriving DecidableEq

/-- Where the scanner stands: between units, inside a name, inside a string literal, or
right after a quote met inside a literal (which ends it unless a second quote follows).
The characters read so far are kept in reverse. -/
inductive LexState where
  | top
  | inIdent (acc : List Char)
  | inStr (acc : List Char)
  | afterQuote (acc : List Char)

/-- The characters of a name. -/
def isIdentChar (c : Char) : Bool := c.isAlphanum || c = '_'

/-- A character met between units: the state it leads to and the units it completes. -/
def startToken (c : Char) : Option (LexState × List SqlToken) :=
  if c = quote then some (.inStr [], [])
  else if c = ' ' then some (.top, [])
  else if c = '=' then some (.top, [.eq])
  else if isIdentChar c then some (.inIdent [c.toLower], [])
  else none

/-- One character of the scan; `none` for a text outside the grammar. -/
def lexStep : LexState → Char → Option (LexState × List SqlToken)
  | .top, c => startToken c
  | .inIdent acc, c =>
    if isIdentChar c then some (.inIdent (c.toLower :: acc), [])
    else (startToken c).map fun p => (p.1, .ident (String.mk acc.reverse) :: p.2)
  | .inStr acc, c =>
    if c = quote then some (.afterQuote acc, []) else some (.inStr (c :: acc), [])
  | .afterQuote acc, c =>
    if c = quote then some (.inStr (quote :: acc), [])
    else if isIdentChar c then none
    else (startToken c).map fun p => (p.1, .str (String.mk acc.reverse) :: p.2)

/-- The units of a text; `none` when a literal is left open or a character is outside
the grammar. -/
def lexSql : LexState → List Char → Option (List SqlToken)
  | .top, [] => some []
  | .inIdent acc, [] => some [.ident (String.mk acc.reverse)]
  | .inStr _, [] => none
  | .afterQuote acc, [] => some [.str (String.mk acc.reverse)]
  | st, c :: cs =>
    match lexStep st c with
    | none => none
    | some (st', emitted) => (lexSql st' cs).map fun ts => emitted ++ ts

/-- A side of a comparison: the column `token` or a string literal. -/
inductive SqlOperand where
  | column
  | literal (value : String)
deriving DecidableEq

/-- The operand a unit stands for. -/
def operandOf : SqlToken → Option SqlOperand
  | .str s => some (.literal s)
  | .ident n => if n = "token" then some .column else none
  | .eq => none

/-- The comparisons of a condition `a = b OR c = d ..`, in order. -/
def parseCondition : List SqlToken → Option (List (SqlOperand × SqlOperand))
  | [a, .eq, b] =>
    match operandOf a, operandOf b with
    | some x, some y => some [(x, y)]
    | _, _ => none
  | a :: .eq :: b :: .ident n :: rest =>
    match operandOf a, operandOf b, n == "or", parseCondition rest with
    | some x, some y, true, some more => some ((x, y) :: more)
    | _, _, _, _ => none
  | _ => none

/-- The value of an operand on a row. -/
def SqlOperand.value (row : SessionTokenRecord) : SqlOperand → String
  | .column => row.Token
  | .literal s => s

/-- A row satisfies the condition when one of its comparisons holds on it. -/
def satisfies (cond : List (SqlOperand × SqlOperand)) (row : SessionTokenRecord) : Bool :=
  cond.any fun p => p.1.value row = p.2.value row

/-- The condition the server reads after `WHERE` once `token` is put between the quotes
of `token='%s'`. -/
def whereClause (token : String) : Option (List (SqlOperand × SqlOperand)) :=
  (lexSql .top ("token=".toList ++ quote :: (token.toList ++ [quote]))).bind parseCondition

/-- Run the statement `GetToken` builds for `token`: the rows that satisfy the condition
the server reads; `unparsed` is its answer to a condition outside the grammar. -/
def Database.selectSessionTokens (d : Database) (driverErr : Option String)
    (unparsed : Except String (List SessionTokenRecord)) (token : String) :
    Except String (List SessionTokenRecord) :=
  match driverErr with
  | some e => .error e
  | none =>
    match whereClause token with
    | some cond => .ok (d.session_tokens.filter (satisfies cond))
    | none => unparsed

/-- The state of a `PostgresConnector` that its methods read or write. -/
structure PostgresConnector where
  db : Database
  tokensCreated : Int
deriving DecidableEq

/-! ## Connector methods (db_connector.go, lines 129-194) -/

/-- The method `CreateAndStoreSessionToken`: returns `(err, token)` and the connector
afterwards. `now` is `time.Now().Unix()`, `randnum` the `Int63` that was drawn. -/
def CreateAndStoreSessionToken (sha : SHA256) (pgc : PostgresConnector) (now : Int)
    (randnum : Nat) (execErr : Option String) (userid : Int) :
    Option String × String × PostgresConnector :=
  let token := EncodeToString (getSHA256Hash sha (toString randnum))
  let tokensCreated := wrapInt64 (pgc.tokensCreated + 1)
  match pgc.db.insertSessionToken execErr userid token (wrapInt64 (now + 300)) with
  | .error err => (some err, "", ⟨pgc.db, tokensCreated⟩)
  | .ok db => (none, token, ⟨db, tokensCreated⟩)

/-- The method `GetToken`: `nil` when the last row scanned (the zero record when the
query returned no row) has not expired at `now`. An expired row stays in the table: the
source leaves its deletion as a TODO. -/
def GetToken (pgc : PostgresConnector) (now : Int) (queryErr : Option String)
    (unparsed : Except String (List SessionTokenRecord)) (token : String) : Option String :=
  match pgc.db.selectSessionTokens queryErr unparsed token with
  | .error err => some err
  | .ok rows =>
    let s : SessionTokenRecord := rows.foldl (fun _ row => row) ⟨"", 0, 0⟩
    if now > s.ExpiryEpoch then
      some (toString now ++ " > " ++ toString s.ExpiryEpoch ++ ", token expired")
    else none

/-- The method `RegisterUser`: returns the error and the connector afterwards. -/
def RegisterUser (sha : SHA256) (pgc : PostgresConnector) (execErr : Option String)
    (email password : String) : Option String × PostgresConnector :=
  let email_hash := EncodeToString (getSHA256Hash sha email)
  let password_hash := EncodeToString (getSHA256Hash sha password)
  match pgc.db.insertUserCredential execErr email_hash password_hash with
  | .error err => (some err, pgc)
  | .ok db => (none, ⟨db, pgc.tokensCreated⟩)

/-- The text of the error `QueryUser` builds with `fmt.Errorf`. -/
def mismatchError (expected got : String) : String :=
  "Mismatch in password, expected " ++ expected ++ ", got " ++ got

/-- The method `QueryUser`: returns `(err, record)`; the record is the last row
scanned, the zero record when no row matched. -/
def QueryUser (sha : SHA256) (pgc : PostgresConnector) (queryErr : Option String)
    (email password : String) : Option String × UserCredentialRecord :=
  let email_hash := EncodeToString (getSHA256Hash sha email)
  let password_hash := EncodeToString (getSHA256Hash sha password)
  match pgc.db.selectUserCredentials queryErr email_hash with
  | .error err => (some err, ⟨0, "", ""⟩)
  | .ok rows =>
    let uc : UserCredentialRecord := rows.foldl (fun _ row => row) ⟨0, "", ""⟩
    if uc.password = password_hash then (none, uc)
    else (some (mismatchError uc.password password_hash), uc)

/-! ## Request handlers (routes.go) -/

/-- The state of a `Router`. -/
structure Router where
  port : Int
  postgres : PostgresConnector
deriving DecidableEq

/-- The form `UserCredentialForm` that `/register` and `/auth` decode. -/
structure UserCredentialForm where
  Email : String
  Password : String
deriving DecidableEq

/-- The struct `IntrospectResponse`. -/
structure IntrospectResponse where
  Active : Bool
deriving DecidableEq

/-- The struct with the one field `Token` that `/introspect` decodes. -/
structure IntrospectRequest where
  Token : String
deriving DecidableEq

/-- What a handler reads of an `*http.Request`: the method, the raw query of the URL,
and what `json.NewDecoder(req.Body).Decode` yields (`none` when it returns an error). -/
structure Request (α : Type) where
  Method : String
  RawQuery : String
  Body : Option α
deriving DecidableEq

/-- The argument `data any` of `writeJSONResponse`: a string or an `IntrospectResponse`. -/
inductive Payload where
  | text (s : String)
  | introspect (r : IntrospectResponse)
deriving DecidableEq

/-- The JSON object `json.Marshal` produces for a payload. -/
inductive JSONBody where
  /-- The object with the one key "message". -/
  | message (s : String)
  /-- The object with the one key "active". -/
  | active (b : Bool)
deriving DecidableEq

/-- What a handler writes to the `http.ResponseWriter`. -/
structure Response where
  statusCode : Int
  body : JSONBody
deriving DecidableEq

/-- The function `writeJSONResponse`: a string is wrapped under the key "message",
anything else is marshalled as it is. -/
def writeJSONResponse (statusCode : Int) (data : Payload) : Response :=
  match data with
  | .text s => ⟨statusCode, .message s⟩
  | .introspect r => ⟨statusCode, .active r.Active⟩

/-- The function `strings.Cut` on lists of characters: the text before and after the
first occurrence of `sep`, or `none` when `sep` does not occur. -/
def cutChars (sep : List Char) : List Char → Option (List Char × List Char)
  | [] => if sep = [] then some ([], []) else none
  | c :: cs =>
    if sep.isPrefixOf (c :: cs) then some ([], (c :: cs).drop sep.length)
    else (cutChars sep cs).map fun p => (c :: p.1, p.2)

/-- The function `strings.Cut`: `(before, after, found)`. -/
def Cut (s sep : String) : String × String × Bool :=
  match cutChars sep.toList s.toList with
  | some (before, after) => (String.mk before, String.mk after, true)
  | none => (s, "", false)

/-- The handler `Router.Auth`: the router afterwards and the response written, `none`
when the handler returns without writing one. -/
def Auth (sha : SHA256) (r : Router) (now : Int) (randnum : Nat)
    (queryErr execErr : Option String) (req : Request UserCredentialForm) :
    Router × Option Response :=
  if req.Method = "POST" then
    match req.Body with
    | none => (r, some (writeJSONResponse 400 (.text "Failure")))
    | some uc =>
      let email_hash := EncodeToString (getSHA256Hash sha uc.Email)
      let pass_hash := EncodeToString (getSHA256Hash sha uc.Password)
      match QueryUser sha r.postgres queryErr email_hash pass_hash with
      | (some _, _) => (r, some (writeJSONResponse 400 (.text "Failure")))
      | (none, queried_user) =>
        match CreateAndStoreSessionToken sha r.postgres now randnum execErr
            queried_user.userid with
        | (some _, _, postgres) =>
          (⟨r.port, postgres⟩, some (writeJSONResponse 400 (.text "Failure")))
        | (none, _, postgres) =>
          (⟨r.port, postgres⟩, some (writeJSONResponse 200 (.text "Success!")))
  else (r, none)

/-- The handler `Router.Register`: the router afterwards and the response written,
`none` when the handler returns without writing one. -/
def Register (sha : SHA256) (r : Router) (execErr : Option String)
    (req : Request UserCredentialForm) : Router × Option Response :=
  let (qKey, qVal, _) := Cut req.RawQuery "="
  if qKey = "registry_type" then
    if qVal = "user" then
      match req.Body with
      | none => (r, some (writeJSONResponse 400 (.text "Failure")))
      | some uc =>
        let email_hash := EncodeToString (getSHA256Hash sha uc.Email)
        let pass_hash := EncodeToString (getSHA256Hash sha uc.Password)
        let (_, postgres) := RegisterUser sha r.postgres execErr email_hash pass_hash
        (⟨r.port, postgres⟩, some (writeJSONResponse 200 (.text "Success!")))
    else if qVal = "service" then (r, none)
    else (r, some (writeJSONResponse 400 (.text "Failure!")))
  else
    let errStr := "  Unknown query params: " ++ req.RawQuery ++ "\n"
    (r, some (writeJSONResponse 400 (.text errStr)))

/-- The handler `Router.Introspect`: the response written. -/
def Introspect (r : Router) (now : Int) (queryErr : Option String)
    (unparsed : Except String (List SessionTokenRecord))
    (req : Request IntrospectRequest) : Response :=
  let introspectResponse : IntrospectResponse := ⟨false⟩
  match req.Body with
  | none => writeJSONResponse 400 (.introspect introspectResponse)
  | some authRequest =>
    match GetToken r.postgres now queryErr unparsed authRequest.Token with
    | some _ => writeJSONResponse 400 (.introspect introspectResponse)
    | none => writeJSONResponse 200 (.introspect ⟨true⟩)

/-! ## Failure of an authentication request -/

/-- An `/auth` request fails inside the handler: its body does not decode, or `QueryUser`
returns an error (no row for the email, another password digest, or a driver error),
or `CreateAndStoreSessionToken` returns an error. -/
def authFails (sha : SHA256) (r : Router) (now : Int) (randnum : Nat)
    (queryErr execErr : Option String) (req : Request UserCredentialForm) : Prop :=
  match req.Body with
  | none => True
  | some uc =>
    (QueryUser sha r.postgres queryErr (EncodeToString (getSHA256Hash sha uc.Email))
      (EncodeToString (getSHA256Hash sha uc.Password))).1 ≠ none ∨
    (CreateAndStoreSessionToken sha r.postgres now randnum execErr
      (QueryUser sha r.postgres queryErr (EncodeToString (getSHA256Hash sha uc.Email))
        (EncodeToString (getSHA256Hash sha uc.Password))).2.userid).1 ≠ none

/-! ## A sample digest, to instantiate the theorems -/

/-- The first 32 bytes of a string (one byte a character), padded with zeros. -/
def sampleSum (s : String) : List UInt8 :=
  ((s.toList.map fun (c : Char) => c.toNat.toUInt8) ++ List.replicate 32 0).take 32

/-- A stand-in for `crypto/sha256` with the right output size. -/
def sampleSHA : SHA256 := ⟨sampleSum, fun s => by simp [sampleSum]⟩

/-- The connector right after the tables have been created. -/
def freshConnector : PostgresConnector := ⟨⟨[], 0, []⟩, 1⟩

/-- The router `main` starts. -/
def freshRouter : Router := ⟨8080, freshConnector⟩

/-- The token `' OR ''='` : one quote, ` OR `, two quotes, `=`, one quote. Put between
the quotes of `token='%s'` it gives the condition `token='' OR ''=''`. -/
def injectedToken : String := String.mk [quote, ' ', 'O', 'R', ' ', quote, quote, '=', quote]

/-- The connector whose token table holds the one live session `(abc, 1, 1700000300)`. -/
def oneSessionConnector : PostgresConnector := ⟨⟨[], 0, [⟨"abc", 1, 1700000300⟩]⟩, 1⟩

/-! ## Auxiliary facts -/

theorem wrapInt64_add300 (x : Int) (hx : isInt64 x) (h : isInt4 (wrapInt64 (x + 300))) :
    wrapInt64 (x + 300) = x + 300 := by
  unfold isInt64 at hx
  unfold isInt4 at h
  unfold wrapInt64 at h ⊢
  omega

theorem encodeByte_length (b : UInt8) : (encodeByte b).length = 2 := rfl

theorem flatMap_encodeByte_length (src : List UInt8) :
    (src.flatMap encodeByte).length = 2 * src.length := by
  induction src with
  | nil => rfl
  | cons b bs ih =>
    simp only [List.flatMap_cons, List.length_append, encodeByte_length, ih, List.length_cons]
    omega

theorem EncodeToString_length (src : List UInt8) :
    (EncodeToString src).length = 2 * src.length := by
  show (src.flatMap encodeByte).length = 2 * src.length
  exact flatMap_encodeByte_length src

theorem digest_ne_empty (sha : SHA256) (s : String) :
    EncodeToString (getSHA256Hash sha s) ≠ "" := by
  intro h
  have hlen := EncodeToString_length (getSHA256Hash sha s)
  rw [h, getSHA256Hash, sha.size_sum, String.length_empty] at hlen
  omega

theorem insertUserCredential_none (d : Database) (email password : String) :
    d.insertUserCredential none email password =
      if isInt4 ((d.userid_seq + 1 : Nat) : Int) then
        .ok ⟨d.user_credentials ++ [⟨((d.userid_seq + 1 : Nat) : Int), email, password⟩],
           d.userid_seq + 1, d.session_tokens⟩
      else .error "pq: nextval: reached maximum value of sequence" := rfl

theorem RegisterUser_ok (sha : SHA256) (pgc : PostgresConnector) (execErr : Option String)
    (email password : String) (h : (RegisterUser sha pgc execErr email password).1 = none) :
    (RegisterUser sha pgc execErr email password).2 =
      ⟨⟨pgc.db.user_credentials ++
          [⟨((pgc.db.userid_seq + 1 : Nat) : Int), EncodeToString (getSHA256Hash sha email),
            EncodeToString (getSHA256Hash sha password)⟩],
        pgc.db.userid_seq + 1, pgc.db.session_tokens⟩, pgc.tokensCreated⟩ := by
  cases execErr with
  | some e => exact absurd h (Option.some_ne_none e)
  | none =>
    simp only [RegisterUser, insertUserCredential_none] at h ⊢
    by_cases hr : isInt4 ((pgc.db.userid_seq + 1 : Nat) : Int)
    · simp only [if_pos hr]
    · simp only [if_neg hr] at h
      exact absurd h (Option.some_ne_none _)

theorem QueryUser_last (sha : SHA256) (l : List UserCredentialRecord) (seq : Nat)
    (toks : List SessionTokenRecord) (tc id : Int) (email password stored : String) :
    QueryUser sha ⟨⟨l ++ [⟨id, EncodeToString (getSHA256Hash sha email), stored⟩], seq, toks⟩, tc⟩
        none email password =
      if stored = EncodeToString (getSHA256Hash sha password) then
        (none, ⟨id, EncodeToString (getSHA256Hash sha email), stored⟩)
      else (some (mismatchError stored (EncodeToString (getSHA256Hash sha password))),
        ⟨id, EncodeToString (getSHA256Hash sha email), stored⟩) := by
  simp [QueryUser, Database.selectUserCredentials, List.filter_append, List.foldl_append]

theorem hextable_getD_inj : ∀ i j : Fin 16,
    hextable.getD i.val '0' = hextable.getD j.val '0' → i = j := by decide

theorem encodeByte_inj (a b : UInt8) (h : encodeByte a = encodeByte b) : a = b := by
  have ha : a.toNat < 256 := a.toBitVec.isLt
  have hb : b.toNat < 256 := b.toBitVec.isLt
  simp only [encodeByte, List.cons.injEq, and_true] at h
  have h1 := hextable_getD_inj ⟨a.toNat / 16, by omega⟩ ⟨b.toNat / 16, by omega⟩ h.1
  have h2 := hextable_getD_inj ⟨a.toNat % 16, Nat.mod_lt _ (by decide)⟩
    ⟨b.toNat % 16, Nat.mod_lt _ (by decide)⟩ h.2
  simp only [Fin.mk.injEq] at h1 h2
  apply UInt8.ext
  omega

theorem flatMap_encodeByte_inj : ∀ (xs ys : List UInt8),
    xs.flatMap encodeByte = ys.flatMap encodeByte → xs = ys
  | [], [] => fun _ => rfl
  | [], y :: ys => fun h => by
    have hl := congrArg List.length h
    rw [flatMap_encodeByte_length, flatMap_encodeByte_length] at hl
    simp only [List.length_cons, List.length_nil] at hl
    omega
  | x :: xs, [] => fun h => by
    have hl := congrArg List.length h
    rw [flatMap_encodeByte_length, flatMap_encodeByte_length] at hl
    simp only [List.length_cons, List.length_nil] at hl
    omega
  | x :: xs, y :: ys => fun h => by
    simp only [List.flatMap_cons] at h
    have hxy := List.append_inj h (by simp only [encodeByte_length])
    rw [encodeByte_inj x y hxy.1, flatMap_encodeByte_inj xs ys hxy.2]

theorem EncodeToString_inj (xs ys : List UInt8) (h : EncodeToString xs = EncodeToString ys) :
    xs = ys :=
  flatMap_encodeByte_inj xs ys (congrArg String.data h)

/-! ## Credential store -/

/-- C1: whatever the store holds, when `RegisterUser(email, password)` returns no
error, a `QueryUser(email, password)` that follows it (its query reaching the table)
returns no error and the row just inserted, whose userid is at least 1. -/
theorem RegisterUser_then_QueryUser (sha : SHA256) (pgc : PostgresConnector)
    (execErr : Option String) (email password : String)
    (hreg : (RegisterUser sha pgc execErr email password).1 = none) :
    (QueryUser sha (RegisterUser sha pgc execErr email password).2 none email password).1 = none ∧
    1 ≤ (QueryUser sha (RegisterUser sha pgc execErr email password).2 none email password).2.userid ∧
    (QueryUser sha (RegisterUser sha pgc execErr email password).2 none email password).2 =
      ⟨((pgc.db.userid_seq + 1 : Nat) : Int), EncodeToString (getSHA256Hash sha email),
        EncodeToString (getSHA256Hash sha password)⟩ := by
  rw [RegisterUser_ok sha pgc execErr email password hreg, QueryUser_last, if_pos rfl]
  refine ⟨rfl, ?_, rfl⟩
  show (1 : Int) ≤ ((pgc.db.userid_seq + 1 : Nat) : Int)
  omega

theorem RegisterUser_then_QueryUser_witness :
    (RegisterUser sampleSHA freshConnector none "root" "dev").1 = none ∧
    (QueryUser sampleSHA (RegisterUser sampleSHA freshConnector none "root" "dev").2 none
      "root" "dev").1 = none ∧
    1 ≤ (QueryUser sampleSHA (RegisterUser sampleSHA freshConnector none "root" "dev").2 none
      "root" "dev").2.userid :=
  ⟨by decide,
   (RegisterUser_then_QueryUser sampleSHA freshConnector none "root" "dev" (by decide)).1,
   (RegisterUser_then_QueryUser sampleSHA freshConnector none "root" "dev" (by decide)).2.1⟩

/-- C4: when the digests of `password'` and `password` differ (so the passwords differ),
then after a successful `RegisterUser(email, password)`, whatever else the store holds,
the call `QueryUser(email, password')` returns a non-nil error, and when its query
reaches the table that error is the mismatch error naming the stored and the offered
digest. -/
theorem QueryUser_wrong_password (sha : SHA256) (pgc : PostgresConnector)
    (execErr queryErr : Option String) (email password password' : String)
    (hdig : getSHA256Hash sha password' ≠ getSHA256Hash sha password)
    (hreg : (RegisterUser sha pgc execErr email password).1 = none) :
    password' ≠ password ∧
    (QueryUser sha (RegisterUser sha pgc execErr email password).2 queryErr email password').1
      ≠ none ∧
    (QueryUser sha (RegisterUser sha pgc execErr email password).2 none email password').1 =
      some (mismatchError (EncodeToString (getSHA256Hash sha password))
        (EncodeToString (getSHA256Hash sha password'))) := by
  have hhex : EncodeToString (getSHA256Hash sha password) ≠
      EncodeToString (getSHA256Hash sha password') :=
    fun h => hdig (EncodeToString_inj _ _ h).symm
  have hlast : (QueryUser sha (RegisterUser sha pgc execErr email password).2 none email
      password').1 = some (mismatchError (EncodeToString (getSHA256Hash sha password))
        (EncodeToString (getSHA256Hash sha password'))) := by
    rw [RegisterUser_ok sha pgc execErr email password hreg, QueryUser_last, if_neg hhex]
  refine ⟨fun h => hdig (by rw [h]), ?_, hlast⟩
  cases queryErr with
  | none => rw [hlast]; exact Option.some_ne_none _
  | some e => exact Option.some_ne_none e

theorem QueryUser_wrong_password_witness :
    getSHA256Hash sampleSHA "prod" ≠ getSHA256Hash sampleSHA "dev" ∧
    (RegisterUser sampleSHA freshConnector none "root" "dev").1 = none ∧
    (QueryUser sampleSHA (RegisterUser sampleSHA freshConnector none "root" "dev").2 none
      "root" "prod").1 ≠ none :=
  ⟨by decide, by decide,
   (QueryUser_wrong_password sampleSHA freshConnector none none "root" "dev" "prod"
      (by decide) (by decide)).2.1⟩

/-- C10: `RegisterUser` inserts unconditionally and `QueryUser` keeps the last row it
scans. When `RegisterUser(email, p1)` and then `RegisterUser(email, p2)` both succeed and
the digests of `p1` and `p2` differ, the table has grown by exactly the two rows for
that email, `QueryUser(email, p2)` succeeds with the second row, and
`QueryUser(email, p1)` fails with the mismatch error. -/
theorem RegisterUser_twice (sha : SHA256) (pgc : PostgresConnector)
    (execErr1 execErr2 : Option String) (email p1 p2 : String)
    (hdig : getSHA256Hash sha p1 ≠ getSHA256Hash sha p2)
    (h1 : (RegisterUser sha pgc execErr1 email p1).1 = none)
    (h2 : (RegisterUser sha (RegisterUser sha pgc execErr1 email p1).2 execErr2 email p2).1
      = none) :
    (RegisterUser sha (RegisterUser sha pgc execErr1 email p1).2 execErr2 email
        p2).2.db.user_credentials =
      pgc.db.user_credentials ++
        [⟨((pgc.db.userid_seq + 1 : Nat) : Int), EncodeToString (getSHA256Hash sha email),
            EncodeToString (getSHA256Hash sha p1)⟩,
         ⟨((pgc.db.userid_seq + 2 : Nat) : Int), EncodeToString (getSHA256Hash sha email),
            EncodeToString (getSHA256Hash sha p2)⟩] ∧
    QueryUser sha (RegisterUser sha (RegisterUser sha pgc execErr1 email p1).2 execErr2 email
        p2).2 none email p2 =
      (none, ⟨((pgc.db.userid_seq + 2 : Nat) : Int), EncodeToString (getSHA256Hash sha email),
        EncodeToString (getSHA256Hash sha p2)⟩) ∧
    (QueryUser sha (RegisterUser sha (RegisterUser sha pgc execErr1 email p1).2 execErr2 email
        p2).2 none email p1).1 =
      some (mismatchError (EncodeToString (getSHA256Hash sha p2))
        (EncodeToString (getSHA256Hash sha p1))) := by
  have hhex : EncodeToString (getSHA256Hash sha p2) ≠ EncodeToString (getSHA256Hash sha p1) :=
    fun h => hdig (EncodeToString_inj _ _ h).symm
  have e1 := RegisterUser_ok sha pgc execErr1 email p1 h1
  rw [e1] at h2 ⊢
  rw [RegisterUser_ok sha _ execErr2 email p2 h2]
  dsimp only
  refine ⟨by rw [List.append_assoc]; rfl, ?_, ?_⟩
  · rw [QueryUser_last, if_pos rfl]
  · rw [QueryUser_last, if_neg hhex]

theorem RegisterUser_twice_witness :
    (QueryUser sampleSHA (RegisterUser sampleSHA
        (RegisterUser sampleSHA freshConnector none "root" "dev").2 none "root" "prod").2
      none "root" "prod").2.userid = 2 ∧
    (QueryUser sampleSHA (RegisterUser sampleSHA
        (RegisterUser sampleSHA freshConnector none "root" "dev").2 none "root" "prod").2
      none "root" "dev").1 ≠ none := by
  have h := RegisterUser_twice sampleSHA freshConnector none none "root" "dev" "prod"
    (by decide) (by decide) (by decide)
  exact ⟨by rw [h.2.1]; rfl, by rw [h.2.2]; exact Option.some_ne_none _⟩

theorem QueryUser_no_row (sha : SHA256) (pgc : PostgresConnector) (email password : String)
    (hno : ∀ r ∈ pgc.db.user_credentials,
      r.email ≠ EncodeToString (getSHA256Hash sha email)) :
    QueryUser sha pgc none email password =
      (some (mismatchError "" (EncodeToString (getSHA256Hash sha password))), ⟨0, "", ""⟩) := by
  have hnil : pgc.db.user_credentials.filter
      (fun r => decide (r.email = EncodeToString (getSHA256Hash sha email))) = [] := by
    rw [List.filter_eq_nil_iff]
    intro r hr
    simpa using hno r hr
  have hne : ¬ ("" = EncodeToString (getSHA256Hash sha password)) :=
    fun h => digest_ne_empty sha password h.symm
  simp only [QueryUser, Database.selectUserCredentials, hnil, List.foldl_nil, if_neg hne]

/-- C8, as stated, fails on the empty table: no row matches the email digest, and the
error `QueryUser("root", "dev")` returns is the mismatch error (with an empty expected
digest), not a separate not-found error. -/
theorem QueryUser_not_found_counterexample :
    (∀ r ∈ freshConnector.db.user_credentials,
      r.email ≠ EncodeToString (getSHA256Hash sampleSHA "root")) ∧
    (QueryUser sampleSHA freshConnector none "root" "dev").1 =
      some (mismatchError "" (EncodeToString (getSHA256Hash sampleSHA "dev"))) := by
  decide

/-- C8, amended: `QueryUser` builds one error of its own, the mismatch error. On a store
with no row for the email digest it returns that error with an empty expected digest
(and the zero record); on a store whose last row for the email holds another password
digest it returns the same error with the stored digest as the expected one. -/
theorem QueryUser_failure_cases (sha : SHA256) (pgc : PostgresConnector)
    (email password : String)
    (hno : ∀ r ∈ pgc.db.user_credentials,
      r.email ≠ EncodeToString (getSHA256Hash sha email)) :
    QueryUser sha pgc none email password =
      (some (mismatchError "" (EncodeToString (getSHA256Hash sha password))), ⟨0, "", ""⟩) ∧
    ∀ (id : Int) (stored : String), stored ≠ EncodeToString (getSHA256Hash sha password) →
      QueryUser sha
          ⟨⟨pgc.db.user_credentials ++
              [⟨id, EncodeToString (getSHA256Hash sha email), stored⟩],
            pgc.db.userid_seq, pgc.db.session_tokens⟩, pgc.tokensCreated⟩
          none email password =
        (some (mismatchError stored (EncodeToString (getSHA256Hash sha password))),
          ⟨id, EncodeToString (getSHA256Hash sha email), stored⟩) :=
  ⟨QueryUser_no_row sha pgc email password hno,
   fun id stored hs => by rw [QueryUser_last, if_neg hs]⟩

theorem QueryUser_failure_cases_witness :
    (∀ r ∈ freshConnector.db.user_credentials,
      r.email ≠ EncodeToString (getSHA256Hash sampleSHA "root")) ∧
    QueryUser sampleSHA freshConnector none "root" "dev" =
      (some (mismatchError "" (EncodeToString (getSHA256Hash sampleSHA "dev"))), ⟨0, "", ""⟩) :=
  ⟨by decide, (QueryUser_failure_cases sampleSHA freshConnector "root" "dev" (by decide)).1⟩

/-! ## Session tokens -/

theorem insertSessionToken_none (d : Database) (userid : Int) (token : String)
    (expiry_epoch : Int) :
    d.insertSessionToken none userid token expiry_epoch =
      if isInt4 userid ∧ isInt4 expiry_epoch then
        .ok ⟨d.user_credentials, d.userid_seq,
          d.session_tokens ++ [⟨token, userid, expiry_epoch⟩]⟩
      else .error "pq: value is out of range for type integer" := rfl

theorem CreateAndStoreSessionToken_ok (sha : SHA256) (pgc : PostgresConnector) (now : Int)
    (randnum : Nat) (execErr : Option String) (userid : Int)
    (h : (CreateAndStoreSessionToken sha pgc now randnum execErr userid).1 = none) :
    isInt4 (wrapInt64 (now + 300)) ∧
    CreateAndStoreSessionToken sha pgc now randnum execErr userid =
      (none, EncodeToString (getSHA256Hash sha (toString randnum)),
        ⟨⟨pgc.db.user_credentials, pgc.db.userid_seq,
          pgc.db.session_tokens ++ [⟨EncodeToString (getSHA256Hash sha (toString randnum)),
            userid, wrapInt64 (now + 300)⟩]⟩, wrapInt64 (pgc.tokensCreated + 1)⟩) := by
  cases execErr with
  | some e => exact absurd h (Option.some_ne_none e)
  | none =>
    simp only [CreateAndStoreSessionToken, insertSessionToken_none] at h ⊢
    by_cases hr : isInt4 userid ∧ isInt4 (wrapInt64 (now + 300))
    · simp only [if_pos hr]
      exact ⟨hr.2, trivial⟩
    · simp only [if_neg hr] at h
      exact absurd h (Option.some_ne_none _)

theorem hextable_getD_ne_quote : ∀ i : Fin 16, hextable.getD i.val '0' ≠ quote := by decide

theorem quote_not_mem_EncodeToString (src : List UInt8) :
    quote ∉ (EncodeToString src).toList := by
  intro h
  have hmem : quote ∈ src.flatMap encodeByte := h
  rw [List.mem_flatMap] at hmem
  obtain ⟨b, _, hb⟩ := hmem
  have hlt : b.toNat < 256 := b.toBitVec.isLt
  simp only [encodeByte, List.mem_cons, List.mem_singleton, List.not_mem_nil, or_false] at hb
  rcases hb with hb | hb
  · exact hextable_getD_ne_quote ⟨b.toNat / 16, by omega⟩ hb.symm
  · exact hextable_getD_ne_quote ⟨b.toNat % 16, Nat.mod_lt _ (by decide)⟩ hb.symm

theorem lexSql_inStr (cs : List Char) : ∀ acc : List Char, quote ∉ cs →
    lexSql (.inStr acc) (cs ++ [quote]) = some [.str (String.mk (acc.reverse ++ cs))] := by
  induction cs with
  | nil =>
    intro acc _
    simp [lexSql, lexStep]
  | cons c cs ih =>
    intro acc h
    have hc : c ≠ quote := fun e => h (by rw [e]; exact List.mem_cons_self _ _)
    have hcs : quote ∉ cs := fun e => h (List.mem_cons_of_mem _ e)
    have ih2 := ih (c :: acc) hcs
    simp only [List.cons_append, lexSql, lexStep, if_neg hc]
    show Option.map (fun ts => [] ++ ts) (lexSql (LexState.inStr (c :: acc)) (cs ++ [quote])) = _
    rw [ih2]
    simp

theorem lexSql_head (rest : List Char) :
    lexSql .top ("token=".toList ++ quote :: rest) =
      (lexSql (.inStr []) rest).map fun ts => [.ident "token", .eq] ++ ts := by
  cases h : lexSql (.inStr []) rest <;>
    simp [lexSql, lexStep, startToken, isIdentChar, quote, h]

theorem whereClause_literal (token : String) (h : quote ∉ token.toList) :
    whereClause token = some [(.column, .literal token)] := by
  unfold whereClause
  rw [lexSql_head, lexSql_inStr token.toList [] h]
  rfl

theorem selectSessionTokens_literal (d : Database)
    (unparsed : Except String (List SessionTokenRecord)) (token : String)
    (h : quote ∉ token.toList) :
    d.selectSessionTokens none unparsed token =
      .ok (d.session_tokens.filter fun r => r.Token = token) := by
  simp only [Database.selectSessionTokens, whereClause_literal token h]
  congr 1
  apply List.filter_congr
  intro r _
  simp [satisfies, SqlOperand.value]

theorem GetToken_last (creds : List UserCredentialRecord) (seq : Nat)
    (toks : List SessionTokenRecord) (tc now userid expiry : Int)
    (unparsed : Except String (List SessionTokenRecord)) (token : String)
    (h : quote ∉ token.toList) :
    GetToken ⟨⟨creds, seq, toks ++ [⟨token, userid, expiry⟩]⟩, tc⟩ now none unparsed token =
      if now > expiry then
        some (toString now ++ " > " ++ toString expiry ++ ", token expired")
      else none := by
  simp [GetToken, selectSessionTokens_literal _ unparsed token h, List.filter_append,
    List.foldl_append]

/-- C2: when `CreateAndStoreSessionToken(userid)` succeeds at time `t0`, the store gains
the record `(token, userid, t0 + 300)` and, whatever else the store holds, `GetToken` of
the returned token at time `t` returns no error exactly when `t ≤ t0 + 300`: none at
`t = t0`, an error at `t = t0 + 301`. -/
theorem CreateAndStoreSessionToken_then_GetToken (sha : SHA256) (pgc : PostgresConnector)
    (t0 t : Int) (randnum : Nat) (execErr : Option String) (userid : Int)
    (unparsed : Except String (List SessionTokenRecord))
    (ht0 : isInt64 t0)
    (hok : (CreateAndStoreSessionToken sha pgc t0 randnum execErr userid).1 = none) :
    (CreateAndStoreSessionToken sha pgc t0 randnum execErr userid).2.2.db.session_tokens =
      pgc.db.session_tokens ++
        [⟨(CreateAndStoreSessionToken sha pgc t0 randnum execErr userid).2.1, userid,
          t0 + 300⟩] ∧
    (GetToken (CreateAndStoreSessionToken sha pgc t0 randnum execErr userid).2.2 t none
        unparsed (CreateAndStoreSessionToken sha pgc t0 randnum execErr userid).2.1 = none ↔
      t ≤ t0 + 300) ∧
    GetToken (CreateAndStoreSessionToken sha pgc t0 randnum execErr userid).2.2 t0 none
        unparsed (CreateAndStoreSessionToken sha pgc t0 randnum execErr userid).2.1 = none ∧
    GetToken (CreateAndStoreSessionToken sha pgc t0 randnum execErr userid).2.2 (t0 + 301) none
        unparsed (CreateAndStoreSessionToken sha pgc t0 randnum execErr userid).2.1 ≠ none := by
  obtain ⟨hr, heq⟩ := CreateAndStoreSessionToken_ok sha pgc t0 randnum execErr userid hok
  have hq := quote_not_mem_EncodeToString (getSHA256Hash sha (toString randnum))
  rw [heq, wrapInt64_add300 t0 ht0 hr]
  dsimp only
  rw [GetToken_last _ _ _ _ _ _ _ _ _ hq, GetToken_last _ _ _ _ _ _ _ _ _ hq,
    GetToken_last _ _ _ _ _ _ _ _ _ hq]
  refine ⟨rfl, ?_, ?_, ?_⟩
  · by_cases h : t > t0 + 300
    · rw [if_pos h]
      constructor
      · intro hc; exact absurd hc (Option.some_ne_none _)
      · intro hc; omega
    · rw [if_neg h]
      constructor
      · intro _; omega
      · intro _; rfl
  · rw [if_neg (by omega)]
  · rw [if_pos (by omega)]
    exact Option.some_ne_none _

theorem CreateAndStoreSessionToken_then_GetToken_witness :
    isInt64 1700000000 ∧
    (CreateAndStoreSessionToken sampleSHA freshConnector 1700000000 42 none 1).1 = none ∧
    GetToken (CreateAndStoreSessionToken sampleSHA freshConnector 1700000000 42 none 1).2.2
        1700000000 none (.ok [])
        (CreateAndStoreSessionToken sampleSHA freshConnector 1700000000 42 none 1).2.1 = none ∧
    GetToken (CreateAndStoreSessionToken sampleSHA freshConnector 1700000000 42 none 1).2.2
        (1700000000 + 301) none (.ok [])
        (CreateAndStoreSessionToken sampleSHA freshConnector 1700000000 42 none 1).2.1 ≠ none :=
  ⟨by decide, by decide,
   (CreateAndStoreSessionToken_then_GetToken sampleSHA freshConnector 1700000000 1700000000 42
      none 1 (.ok []) (by decide) (by decide)).2.2⟩

/-- C3: the code at two tokens that match no record.
With the token `' OR ''='` at time 1700000000, on a table holding another session that is
still live, the condition reads `token='' OR ''=''`, every row satisfies it, and
`GetToken` returns no error on that session's expiry: `Introspect` answers 200 with
active true. With the token "doesnotexist" on the empty table at time 0, `GetToken`
compares the time with the expiry 0 of the zero record and returns no error either.
Both conditions are inside the grammar, so the argument `unparsed` plays no part. -/
theorem GetToken_unmatched_token_active :
    (∀ r ∈ oneSessionConnector.db.session_tokens, r.Token ≠ injectedToken) ∧
    whereClause injectedToken = some [(.column, .literal ""), (.literal "", .literal "")] ∧
    GetToken oneSessionConnector 1700000000 none (.ok []) injectedToken = none ∧
    Introspect ⟨8080, oneSessionConnector⟩ 1700000000 none (.ok [])
      ⟨"POST", "", some ⟨injectedToken⟩⟩ = ⟨200, .active true⟩ ∧
    (∀ r ∈ freshConnector.db.session_tokens, r.Token ≠ "doesnotexist") ∧
    GetToken freshConnector 0 none (.ok []) "doesnotexist" = none ∧
    Introspect freshRouter 0 none (.ok []) ⟨"POST", "", some ⟨"doesnotexist"⟩⟩ =
      ⟨200, .active true⟩ := by
  decide

/-! ## Request handlers -/

theorem Cut_registry_type_user : Cut "registry_type=user" "=" = ("registry_type", "user", true) := by
  decide

theorem Register_user (sha : SHA256) (r : Router) (execErr : Option String)
    (method : String) (uc : UserCredentialForm) :
    Register sha r execErr ⟨method, "registry_type=user", some uc⟩ =
      (⟨r.port, (RegisterUser sha r.postgres execErr
          (EncodeToString (getSHA256Hash sha uc.Email))
          (EncodeToString (getSHA256Hash sha uc.Password))).2⟩,
        some ⟨200, .message "Success!"⟩) := by
  simp only [Register, Cut_registry_type_user, if_true, writeJSONResponse]

/-- C5: after `Register` has handled `POST /register?registry_type=user` with the body
`(email, password)` and its insert succeeded, `Auth` handling a POST with the same body
at time `t` (its query reaching the table, its insert succeeding) answers 200 with the
message "Success!" and appends exactly one record to `session_tokens`: the id of the
credential record just registered, with expiry `t + 300`. -/
theorem Register_then_Auth (sha : SHA256) (r : Router) (execErr1 execErr2 : Option String)
    (t : Int) (randnum : Nat) (email password rawQuery : String)
    (ht : isInt64 t)
    (hreg : (RegisterUser sha r.postgres execErr1
      (EncodeToString (getSHA256Hash sha email))
      (EncodeToString (getSHA256Hash sha password))).1 = none)
    (htok : (CreateAndStoreSessionToken sha
      (Register sha r execErr1 ⟨"POST", "registry_type=user", some ⟨email, password⟩⟩).1.postgres
      t randnum execErr2 ((r.postgres.db.userid_seq + 1 : Nat) : Int)).1 = none) :
    (Register sha r execErr1 ⟨"POST", "registry_type=user", some ⟨email, password⟩⟩).2 =
      some ⟨200, .message "Success!"⟩ ∧
    (Register sha r execErr1
        ⟨"POST", "registry_type=user", some ⟨email, password⟩⟩).1.postgres.db.user_credentials =
      r.postgres.db.user_credentials ++
        [⟨((r.postgres.db.userid_seq + 1 : Nat) : Int),
          EncodeToString (getSHA256Hash sha (EncodeToString (getSHA256Hash sha email))),
          EncodeToString (getSHA256Hash sha (EncodeToString (getSHA256Hash sha password)))⟩] ∧
    (Auth sha (Register sha r execErr1
        ⟨"POST", "registry_type=user", some ⟨email, password⟩⟩).1 t randnum none execErr2
        ⟨"POST", rawQuery, some ⟨email, password⟩⟩).2 = some ⟨200, .message "Success!"⟩ ∧
    (Auth sha (Register sha r execErr1
        ⟨"POST", "registry_type=user", some ⟨email, password⟩⟩).1 t randnum none execErr2
        ⟨"POST", rawQuery, some ⟨email, password⟩⟩).1.postgres.db.session_tokens =
      (Register sha r execErr1
        ⟨"POST", "registry_type=user", some ⟨email, password⟩⟩).1.postgres.db.session_tokens ++
        [⟨EncodeToString (getSHA256Hash sha (toString randnum)),
          ((r.postgres.db.userid_seq + 1 : Nat) : Int), t + 300⟩] ∧
    (Auth sha (Register sha r execErr1
        ⟨"POST", "registry_type=user", some ⟨email, password⟩⟩).1 t randnum none execErr2
        ⟨"POST", rawQuery, some ⟨email, password⟩⟩).1.postgres.db.user_credentials =
      (Register sha r execErr1
        ⟨"POST", "registry_type=user", some ⟨email, password⟩⟩).1.postgres.db.user_credentials := by
  rw [Register_user] at htok ⊢
  dsimp only at htok ⊢
  rw [RegisterUser_ok sha r.postgres execErr1 _ _ hreg] at htok ⊢
  obtain ⟨hr, heq⟩ := CreateAndStoreSessionToken_ok sha _ t randnum execErr2 _ htok
  rw [wrapInt64_add300 t ht hr] at heq
  simp only [Auth, if_true, QueryUser_last, heq, writeJSONResponse]
  exact ⟨trivial, trivial, trivial, trivial, trivial⟩

theorem Register_then_Auth_witness :
    isInt64 1700000000 ∧
    (Auth sampleSHA (Register sampleSHA freshRouter none
        ⟨"POST", "registry_type=user", some ⟨"root", "dev"⟩⟩).1 1700000000 42 none none
        ⟨"POST", "", some ⟨"root", "dev"⟩⟩).2 = some ⟨200, .message "Success!"⟩ ∧
    (Auth sampleSHA (Register sampleSHA freshRouter none
        ⟨"POST", "registry_type=user", some ⟨"root", "dev"⟩⟩).1 1700000000 42 none none
        ⟨"POST", "", some ⟨"root", "dev"⟩⟩).1.postgres.db.session_tokens =
      [⟨EncodeToString (getSHA256Hash sampleSHA "42"), 1, 1700000300⟩] :=
  ⟨by decide,
   (Register_then_Auth sampleSHA freshRouter none none 1700000000 42 "root" "dev" ""
      (by decide) (by decide) (by decide)).2.2.1,
   (Register_then_Auth sampleSHA freshRouter none none 1700000000 42 "root" "dev" ""
      (by decide) (by decide) (by decide)).2.2.2.1⟩

/-- C6, as stated, fails for the subject type "service": `Register` logs that it cannot
register services and returns without writing a response, so no status 400 is sent
(the same with a body that fails to decode). -/
theorem Register_service_counterexample :
    Register sampleSHA freshRouter none ⟨"POST", "registry_type=service", some ⟨"root", "dev"⟩⟩ =
      (freshRouter, none) ∧
    Register sampleSHA freshRouter none ⟨"POST", "registry_type=service", none⟩ =
      (freshRouter, none) := by
  decide

/-- C6, amended: for every request to `Register`: when it selects
`registry_type=service`, the handler writes no response and leaves the store as it was;
when it does not, and the body fails to decode or the query is anything other than
`registry_type=user`, the handler answers with status 400 and leaves the store as it
was. -/
theorem Register_rejects (sha : SHA256) (r : Router) (execErr : Option String)
    (req : Request UserCredentialForm) :
    ((Cut req.RawQuery "=").1 = "registry_type" ∧ (Cut req.RawQuery "=").2.1 = "service" →
      Register sha r execErr req = (r, none)) ∧
    (¬ ((Cut req.RawQuery "=").1 = "registry_type" ∧
        (Cut req.RawQuery "=").2.1 = "service") →
      (req.Body = none ∨ ¬ ((Cut req.RawQuery "=").1 = "registry_type" ∧
        (Cut req.RawQuery "=").2.1 = "user")) →
      ∃ msg, Register sha r execErr req = (r, some ⟨400, .message msg⟩)) := by
  rcases hcut : Cut req.RawQuery "=" with ⟨qKey, qVal, found⟩
  simp only [Register, hcut, writeJSONResponse]
  constructor
  · rintro ⟨hk, hv⟩
    have hu : ¬ qVal = "user" := by rw [hv]; decide
    rw [if_pos hk, if_neg hu, if_pos hv]
  · intro hsvc hbad
    by_cases hk : qKey = "registry_type"
    · rw [if_pos hk]
      by_cases hu : qVal = "user"
      · rw [if_pos hu]
        rcases hbad with hb | hb
        · rw [hb]
          exact ⟨"Failure", rfl⟩
        · exact absurd ⟨hk, hu⟩ hb
      · rw [if_neg hu, if_neg (fun hs => hsvc ⟨hk, hs⟩)]
        exact ⟨"Failure!", rfl⟩
    · rw [if_neg hk]
      exact ⟨_, rfl⟩

theorem Register_rejects_witness :
    Register sampleSHA freshRouter none ⟨"POST", "registry_type=service", some ⟨"root", "dev"⟩⟩ =
      (freshRouter, none) ∧
    (∃ msg, Register sampleSHA freshRouter none ⟨"POST", "registry_type=user", none⟩ =
      (freshRouter, some ⟨400, .message msg⟩)) ∧
    (∃ msg, Register sampleSHA freshRouter none
        ⟨"POST", "registry_type=admin", some ⟨"root", "dev"⟩⟩ =
      (freshRouter, some ⟨400, .message msg⟩)) :=
  ⟨(Register_rejects sampleSHA freshRouter none
      ⟨"POST", "registry_type=service", some ⟨"root", "dev"⟩⟩).1 (by decide),
   (Register_rejects sampleSHA freshRouter none ⟨"POST", "registry_type=user", none⟩).2
      (by decide) (Or.inl rfl),
   (Register_rejects sampleSHA freshRouter none
      ⟨"POST", "registry_type=admin", some ⟨"root", "dev"⟩⟩).2 (by decide) (Or.inr (by decide))⟩

theorem Register_ignores_Method (sha : SHA256) (r : Router) (execErr : Option String)
    (method rawQuery : String) (body : Option UserCredentialForm) :
    Register sha r execErr ⟨method, rawQuery, body⟩ =
      Register sha r execErr ⟨"POST", rawQuery, body⟩ := rfl

theorem Register_GET_inserts (sha : SHA256) :
    Register sha freshRouter none ⟨"GET", "registry_type=user", some ⟨"root", "dev"⟩⟩ =
      (⟨8080, ⟨⟨[⟨1,
          EncodeToString (getSHA256Hash sha (EncodeToString (getSHA256Hash sha "root"))),
          EncodeToString (getSHA256Hash sha (EncodeToString (getSHA256Hash sha "dev")))⟩],
        1, []⟩, 1⟩⟩, some ⟨200, .message "Success!"⟩) := by
  rw [Register_user]
  rfl

theorem Register_store_failure (sha : SHA256) (r : Router) (e method : String)
    (uc : UserCredentialForm) :
    Register sha r (some e) ⟨method, "registry_type=user", some uc⟩ =
      (r, some ⟨200, .message "Success!"⟩) := by
  rw [Register_user]
  rfl

/-- C7, as stated, fails for `Auth` at a GET request: the handler returns without
writing any response, so no failure status is written. -/
theorem Auth_nonPOST_counterexample :
    Auth sampleSHA freshRouter 1700000000 42 none none ⟨"GET", "", some ⟨"root", "dev"⟩⟩ =
      (freshRouter, none) := by
  decide

/-- C7, amended: for every request whose method is not POST, `Auth` drops it silently:
it writes no response and leaves the router, hence the credential table and the token
table, as they were. -/
theorem Auth_nonPOST (sha : SHA256) (r : Router) (now : Int) (randnum : Nat)
    (queryErr execErr : Option String) (req : Request UserCredentialForm)
    (h : req.Method ≠ "POST") :
    Auth sha r now randnum queryErr execErr req = (r, none) := by
  simp only [Auth, if_neg h]

theorem Auth_nonPOST_witness :
    ("GET" : String) ≠ "POST" ∧
    Auth sampleSHA (Register sampleSHA freshRouter none
        ⟨"POST", "registry_type=user", some ⟨"root", "dev"⟩⟩).1 1700000000 42 none none
        ⟨"GET", "", some ⟨"root", "dev"⟩⟩ =
      ((Register sampleSHA freshRouter none
        ⟨"POST", "registry_type=user", some ⟨"root", "dev"⟩⟩).1, none) :=
  ⟨by decide, Auth_nonPOST sampleSHA _ 1700000000 42 none none
    ⟨"GET", "", some ⟨"root", "dev"⟩⟩ (by decide)⟩

theorem Auth_failure (sha : SHA256) (r : Router) (now : Int) (randnum : Nat)
    (queryErr execErr : Option String) (req : Request UserCredentialForm)
    (hpost : req.Method = "POST")
    (hfail : authFails sha r now randnum queryErr execErr req) :
    (Auth sha r now randnum queryErr execErr req).2 = some ⟨400, .message "Failure"⟩ := by
  rcases req with ⟨method, rawQuery, body⟩
  simp only at hpost
  subst hpost
  cases body with
  | none => rfl
  | some uc =>
    simp only [authFails] at hfail
    simp only [Auth, if_true, writeJSONResponse]
    rcases hq : QueryUser sha r.postgres queryErr (EncodeToString (getSHA256Hash sha uc.Email))
      (EncodeToString (getSHA256Hash sha uc.Password)) with ⟨err, queried_user⟩
    rw [hq] at hfail
    cases err with
    | some e => rfl
    | none =>
      simp only
      rcases hc : CreateAndStoreSessionToken sha r.postgres now randnum execErr
        queried_user.userid with ⟨err2, token, postgres⟩
      rw [hc] at hfail
      cases err2 with
      | some e => rfl
      | none => simp at hfail

/-- C9: any two POST requests to `Auth` that fail, each for whichever reason (no row
for the email, another password digest, a driver error, a failed token insert, a body
that does not decode), get the same response, status 400 with the message "Failure",
a constant that carries nothing of the internal error. -/
theorem Auth_failures_indistinguishable (sha : SHA256) (r1 r2 : Router) (now1 now2 : Int)
    (randnum1 randnum2 : Nat) (queryErr1 execErr1 queryErr2 execErr2 : Option String)
    (req1 req2 : Request UserCredentialForm)
    (hpost1 : req1.Method = "POST") (hpost2 : req2.Method = "POST")
    (hfail1 : authFails sha r1 now1 randnum1 queryErr1 execErr1 req1)
    (hfail2 : authFails sha r2 now2 randnum2 queryErr2 execErr2 req2) :
    (Auth sha r1 now1 randnum1 queryErr1 execErr1 req1).2 = some ⟨400, .message "Failure"⟩ ∧
    (Auth sha r2 now2 randnum2 queryErr2 execErr2 req2).2 =
      (Auth sha r1 now1 randnum1 queryErr1 execErr1 req1).2 := by
  rw [Auth_failure sha r1 now1 randnum1 queryErr1 execErr1 req1 hpost1 hfail1,
    Auth_failure sha r2 now2 randnum2 queryErr2 execErr2 req2 hpost2 hfail2]
  exact ⟨rfl, rfl⟩

theorem Auth_failures_indistinguishable_witness :
    (QueryUser sampleSHA freshRouter.postgres none
      (EncodeToString (getSHA256Hash sampleSHA "root"))
      (EncodeToString (getSHA256Hash sampleSHA "dev"))).1 =
      some (mismatchError ""
        (EncodeToString (getSHA256Hash sampleSHA (EncodeToString (getSHA256Hash sampleSHA "dev"))))) ∧
    (QueryUser sampleSHA (Register sampleSHA freshRouter none
        ⟨"POST", "registry_type=user", some ⟨"root", "dev"⟩⟩).1.postgres none
      (EncodeToString (getSHA256Hash sampleSHA "root"))
      (EncodeToString (getSHA256Hash sampleSHA "prod"))).1 =
      some (mismatchError
        (EncodeToString (getSHA256Hash sampleSHA (EncodeToString (getSHA256Hash sampleSHA "dev"))))
        (EncodeToString (getSHA256Hash sampleSHA (EncodeToString (getSHA256Hash sampleSHA "prod"))))) ∧
    (Auth sampleSHA (Register sampleSHA freshRouter none
        ⟨"POST", "registry_type=user", some ⟨"root", "dev"⟩⟩).1 1700000000 42 none none
        ⟨"POST", "", some ⟨"root", "prod"⟩⟩).2 =
      (Auth sampleSHA freshRouter 1700000000 42 none none
        ⟨"POST", "", some ⟨"root", "dev"⟩⟩).2 :=
  ⟨by decide, by decide,
   (Auth_failures_indistinguishable sampleSHA freshRouter
      (Register sampleSHA freshRouter none
        ⟨"POST", "registry_type=user", some ⟨"root", "dev"⟩⟩).1
      1700000000 1700000000 42 42 none none none none
      ⟨"POST", "", some ⟨"root", "dev"⟩⟩ ⟨"POST", "", some ⟨"root", "prod"⟩⟩
      rfl rfl (Or.inl (by decide)) (Or.inl (by decide))).2⟩

end OAuthService
